import Mathlib

/-!
Verification development for the moltstream bridge: the gateway client's
run tracking and delta computation, the bridge multiplexer's dispatch and
deferred-response logic, and the session log manager's rotation policy,
shallowly embedded from the Go sources.

Go strings are embedded as lists of characters (`Str`); Go byte-length and
byte-slicing on strings become `List.length` and `List.drop`.
-/

abbrev Str := List Char

/-- Embedding of a Go string literal. -/
def chars (s : String) : Str := s.toList

namespace gatewayws

/-!
Embedding of the run-tracking websocket gateway client
(`gateway.Client`: `handleChatEvent`, `Send`, `IsConnected`).
Only the fields touched by these operations are modelled; the callbacks
`onMessage`/`onError` become explicit output lists.
-/

/-- One entry of `event.Message.Content` (`{type, text}`). -/
structure ContentPart where
  type : Str
  text : Str
deriving DecidableEq, Repr

/-- A decoded inbound `chat` event (`ChatEvent` in the source). -/
structure ChatEvent where
  runId : Str
  state : Str
  content : List ContentPart
  errorMessage : Str
deriving DecidableEq, Repr

/-- Mutable client state relevant to sending and run tracking:
`connected`, whether `conn` is non-nil, `reqID`, `activeRunID`,
`lastContent`. -/
structure Client where
  connected : Bool
  hasConn : Bool
  reqID : Nat
  activeRunID : Str
  lastContent : Str
deriving DecidableEq, Repr

/-- The invocations of the `onMessage` callback (content, done) made while
handling one event, plus whether `onError` was invoked (it never is inside
`handleChatEvent` in the source). -/
structure EventResult where
  messages : List (Str × Bool)
  raisedError : Bool
deriving DecidableEq, Repr

/-- The concatenation of the `text` of all parts with `type == "text"`,
exactly the `fullText` loop of `handleChatEvent`. -/
def fullTextOf (e : ChatEvent) : Str :=
  e.content.foldl (fun acc p => if p.type = chars "text" then acc ++ p.text else acc) []

/-- Embeds `state == "final" || state == "error" || state == "aborted"`. -/
abbrev terminalState (st : Str) : Prop :=
  st = chars "final" ∨ st = chars "error" ∨ st = chars "aborted"

/-- The delta computation of `handleChatEvent`, named: `delta := ""`, then
`if len(fullText) > len(lastContent) { delta = fullText[len(lastContent):] }`. -/
def lengthDelta (lastContent fullText : Str) : Str :=
  if lastContent.length < fullText.length then fullText.drop lastContent.length else []

/-- Embedding of `Client.handleChatEvent` (part with an already-decoded
event): filter on the active run, compute the delta from the accumulated
content by byte length, update the tracker, clear the run on a terminal
state, and invoke `onMessage` per the source's conditions. -/
def handleChatEvent (c : Client) (e : ChatEvent) : Client × EventResult :=
  if c.activeRunID = [] ∨ e.runId ≠ c.activeRunID then
    (c, ⟨[], false⟩)
  else
    let fullText := fullTextOf e
    let delta := lengthDelta c.lastContent fullText
    let done : Bool := if terminalState e.state then true else false
    let c' := if done = true
              then { c with activeRunID := [], lastContent := [] }
              else { c with lastContent := fullText }
    let msgs := if e.state = chars "error" then [(e.errorMessage, true)]
                else if delta ≠ [] ∨ done = true then [(delta, done)] else []
    (c', ⟨msgs, false⟩)

/-- Sequential handling of a list of inbound chat events (the read loop
restricted to `chat` events), collecting every `onMessage` invocation. -/
def processEvents (c : Client) : List ChatEvent → Client × List (Str × Bool)
  | [] => (c, [])
  | e :: es =>
    let p := handleChatEvent c e
    let q := processEvents p.1 es
    (q.1, p.2.messages ++ q.2)

/-- Observable effect of `Client.Send`: either nothing was written, or a
`chat.send` frame with the given request counter and content went out on
the websocket connection. -/
inductive SendEffect
  | noWrite
  | wroteChatSend (id : Nat) (content : Str)
deriving DecidableEq, Repr

/-- Embedding of `Client.Send`: fail with "not connected" unless connected
with a live connection, else increment `reqID` and write a `chat.send`
frame. Returns (new state, error result, network effect). -/
def Send (c : Client) (content : Str) : Client × Option Str × SendEffect :=
  if c.connected = false ∨ c.hasConn = false then
    (c, some (chars "not connected"), .noWrite)
  else
    ({ c with reqID := c.reqID + 1 }, none, .wroteChatSend (c.reqID + 1) content)

/-- Relation: `a` is a proper prefix of `b` (strict extension of cumulative content). -/
def strictExt (a b : Str) : Prop := a <+: b ∧ a ≠ b

instance : DecidableRel strictExt := fun a b =>
  decidable_of_iff (a.isPrefixOf b = true ∧ a ≠ b)
    (and_congr_left fun _ => List.isPrefixOf_iff_prefix)

end gatewayws

namespace gatewaycli

/-!
Embedding of the subprocess-relay gateway client variant
(`gateway.Client` wrapping the `openclaw` CLI).
-/

/-- The CLI-relay client holds only a fixed session identifier. -/
structure Client where
  sessionID : Str
deriving DecidableEq, Repr

/-- Embedding of `Client.IsConnected` of the CLI variant: unconditionally `true`. -/
def IsConnected (_ : Client) : Bool := true

end gatewaycli

namespace session

/-!
Embedding of the session log manager (`session.Manager`: `SessionPath`,
`ArchiveDir`, `EnsureSession`, `createSession`, `Archive`).  The local
filesystem is modelled explicitly: the session file as an optional byte
content and the archive directory as a name-to-content association.
`time.Now()` is passed in as a `Clock` carrying the formatting-library
outputs the source consumes (`Format("2006-01-02-150405")`,
`Format(time.RFC3339)`, `UnixNano()`).
-/

/-- The manager's configuration fields. -/
structure Manager where
  directory : Str
  maxSizeBytes : Nat
  autoArchive : Bool
deriving DecidableEq, Repr

/-- The slice of the filesystem the manager touches: the session file's
content (none when the file does not exist) and the archive directory's
files. -/
structure FS where
  sessionFile : Option Str
  archive : List (Str × Str)
deriving DecidableEq, Repr

/-- The outputs of `time.Now()` that the source formats. -/
structure Clock where
  stamp : Str
  rfc3339 : Str
  unixNano : Nat
deriving DecidableEq, Repr

/-- Embedding of `Manager.SessionPath`: `filepath.Join(directory, "session.md")`. -/
def SessionPath (m : Manager) : Str := m.directory ++ chars "/session.md"

/-- Embedding of `Manager.ArchiveDir`: `filepath.Join(directory, "archive")`. -/
def ArchiveDir (m : Manager) : Str := m.directory ++ chars "/archive"

/-- Embedding of `generateID()`: `fmt.Sprintf("%d", time.Now().UnixNano())`. -/
def generateID (cl : Clock) : Str := (Nat.repr cl.unixNano).toList

/-- The header block written by `Manager.createSession`. -/
def headerFor (cl : Clock) : Str :=
  chars "<!-- moltstream session -->\n<!-- id: " ++ generateID cl ++
  chars " -->\n<!-- created: " ++ cl.rfc3339 ++ chars " -->\n\n"

/-- Embedding of `Manager.createSession`: `os.WriteFile(path, header, 0644)` — creates
or truncates the session file to exactly the header block. -/
def createSession (fs : FS) (cl : Clock) : FS :=
  { fs with sessionFile := some (headerFor cl) }

/-- The archive file name `fmt.Sprintf("session-%s.md", timestamp)`. -/
def archiveFileName (cl : Clock) : Str :=
  chars "session-" ++ cl.stamp ++ chars ".md"

/-- Removal of a file name from a directory listing. -/
def removeFile : List (Str × Str) → Str → List (Str × Str)
  | [], _ => []
  | p :: t, k => if p.1 = k then removeFile t k else p :: removeFile t k

/-- Effect of `os.Rename(src, dst)` into the archive directory: the destination is
replaced when it already exists, otherwise added. -/
def renameInto (l : List (Str × Str)) (k v : Str) : List (Str × Str) :=
  removeFile l k ++ [(k, v)]

/-- Directory lookup by file name. -/
def lookupFile : List (Str × Str) → Str → Option Str
  | [], _ => none
  | p :: t, k => if p.1 = k then some p.2 else lookupFile t k

/-- Embedding of `Manager.Archive`: a no-op when no session file exists; otherwise the
session file is renamed into the archive directory under a
timestamp-derived name. -/
def Archive (fs : FS) (cl : Clock) : FS :=
  match fs.sessionFile with
  | none => fs
  | some content =>
    { sessionFile := none,
      archive := renameInto fs.archive (archiveFileName cl) content }

/-- Embedding of `Manager.EnsureSession`: create the session file if absent; when auto
archiving is on and the file size exceeds `maxSizeBytes`, archive it and
create a fresh one; otherwise leave the filesystem untouched. Returns the
session path with the resulting filesystem. -/
def EnsureSession (m : Manager) (fs : FS) (cl : Clock) : Str × FS :=
  match fs.sessionFile with
  | none => (SessionPath m, createSession fs cl)
  | some content =>
    if m.autoArchive = true ∧ m.maxSizeBytes < content.length then
      (SessionPath m, createSession (Archive fs cl) cl)
    else
      (SessionPath m, fs)

/-- Embedding of `Manager.GetSize`: the session file's size, zero when absent. -/
def GetSize (fs : FS) : Nat :=
  match fs.sessionFile with
  | none => 0
  | some content => content.length

end session

namespace bridge

/-!
Embedding of the bridge multiplexer (`Bridge.Run`, `handleRequest`,
`handleSend`, `handleStatus`, `handleReconnect`, `handleArchive`,
`handleSessionPath`, `handleGatewayMessage`).  Everything the bridge
writes to its local output becomes a `LocalMsg`; collaborator outcomes
(gateway client connectivity and call results, session manager results)
are supplied per request through an `Env` record, since those collaborators
live behind interfaces.
-/

/-- JSON-RPC error codes from `internal/protocol`. -/
def ErrParse : Int := -32700

def ErrInvalidReq : Int := -32600

def ErrMethodNotFound : Int := -32601

def ErrInvalidParams : Int := -32602

def ErrInternal : Int := -32603

def ErrNotConnected : Int := -32000

def ErrGatewayError : Int := -32001

/-- Result bodies the bridge can attach to a success response. -/
inductive RespBody
  | statusOk
  | statusReconnected
  | archived (path : Str)
  | sessionPath (path : Str)
  | statusReport (connected : Bool) (sessionID : Str) (gateway : Str)
deriving DecidableEq, Repr

/-- Parameter payloads of the bridge's asynchronous local messages. -/
inductive NotifBody
  | stream (delta : Str) (done : Bool)
  | errorMsg (message : Str)
  | connectedMsg (gateway : Str)
deriving DecidableEq, Repr

/-- One line written to the local output: a success response, an error
response, or an asynchronous message (`sendResult` / `sendError` /
the async path of the bridge). -/
inductive LocalMsg
  | response (id : Int) (body : RespBody)
  | errorResponse (id : Int) (code : Int) (message : Str)
  | asyncMsg (method : Str) (body : NotifBody)
deriving DecidableEq, Repr

/-- A decoded local request: its method, its params interpreted as
`SendParams` when they decode as such, and its optional correlation id
(`ID *int`). -/
structure Request where
  method : Str
  sendParams : Option Str
  id : Option Int
deriving DecidableEq, Repr

/-- The outcomes of the collaborator calls a single request can make:
`client.IsConnected()`, `client.Send` / `client.Reconnect` /
`session.Archive` error results, `session.EnsureSession` outcome, and the
configured gateway address. -/
structure Env where
  isConnected : Bool
  sendErr : Option Str
  reconnectErr : Option Str
  archiveErr : Option Str
  ensureErr : Option Str
  ensurePath : Str
  gateway : Str
deriving DecidableEq, Repr

/-- The bridge's own mutable state: the correlation id of the deferred
`send` response (`b.reqID`, zero meaning none pending). -/
structure BridgeState where
  reqID : Int
deriving DecidableEq, Repr

/-- Embedding of `Bridge.handleSend`: not-connected and gateway errors answer
immediately; an accepted send defers the response by recording the
request id. -/
def handleSend (env : Env) (b : BridgeState) (id : Int) (_content : Str) :
    BridgeState × List LocalMsg :=
  if env.isConnected = false then
    (b, [.errorResponse id ErrNotConnected (chars "not connected to gateway")])
  else
    match env.sendErr with
    | some msg => (b, [.errorResponse id ErrGatewayError msg])
    | none => (⟨id⟩, [])

/-- Embedding of `Bridge.handleRequest`: resolve the id (zero when absent) and dispatch
on the method name exactly as the source's switch does. -/
def handleRequest (env : Env) (b : BridgeState) (req : Request) :
    BridgeState × List LocalMsg :=
  let id := req.id.getD 0
  if req.method = chars "send" then
    match req.sendParams with
    | none => (b, [.errorResponse id ErrInvalidParams (chars "invalid params")])
    | some content => handleSend env b id content
  else if req.method = chars "status" then
    (b, [.response id (.statusReport env.isConnected [] env.gateway)])
  else if req.method = chars "reconnect" then
    match env.reconnectErr with
    | some m => (b, [.errorResponse id ErrGatewayError m])
    | none => (b, [.response id .statusReconnected])
  else if req.method = chars "archive" then
    match env.archiveErr with
    | some m => (b, [.errorResponse id ErrInternal m])
    | none => (b, [.response id (.archived env.ensurePath)])
  else if req.method = chars "session_path" then
    match env.ensureErr with
    | some m => (b, [.errorResponse id ErrInternal m])
    | none => (b, [.response id (.sessionPath env.ensurePath)])
  else
    (b, [.errorResponse id ErrMethodNotFound (chars "method not found")])

/-- Embedding of `Bridge.handleGatewayMessage`: always forward the delta as a `stream`
message; on `done` with a pending id, answer that id with `{status:"ok"}`
and reset the pending id to zero. -/
def handleGatewayMessage (b : BridgeState) (content : Str) (done : Bool) :
    BridgeState × List LocalMsg :=
  let fwd : LocalMsg := .asyncMsg (chars "stream") (.stream content done)
  if done = true ∧ b.reqID ≠ 0 then
    (⟨0⟩, [fwd, .response b.reqID .statusOk])
  else
    (b, [fwd])

/-- One unit of work for the bridge's two loops: a local input line already
delivered by the scanner — hence within its token limit — (empty, malformed
JSON, or a decoded request together with its collaborators' outcomes) or an
`onMessage` callback from the gateway client.  The scanner's token limit
itself is modelled by `runLines` below. -/
inductive BridgeInput
  | emptyLine
  | malformedLine
  | requestLine (env : Env) (req : Request)
  | gatewayMsg (content : Str) (done : Bool)
deriving Repr

/-- One step of the bridge: the body of `Bridge.Run`'s scan loop for input
lines, or `handleGatewayMessage` for a gateway callback. -/
def step (b : BridgeState) : BridgeInput → BridgeState × List LocalMsg
  | .emptyLine => (b, [])
  | .malformedLine => (b, [.errorResponse 0 ErrParse (chars "parse error")])
  | .requestLine env req => handleRequest env b req
  | .gatewayMsg content done => handleGatewayMessage b content done

/-- The bridge processing a whole interleaving of local lines and gateway
callbacks (callbacks are serialized with dispatch, per the source's
locking), collecting every local output line in order. -/
def runBridge (b : BridgeState) : List BridgeInput → BridgeState × List LocalMsg
  | [] => (b, [])
  | i :: is =>
    let p := step b i
    let q := runBridge p.1 is
    (q.1, p.2 ++ q.2)

/-- Whether a local output line is a response (success or error) correlated
to `n`. -/
def isCompletionFor (n : Int) : LocalMsg → Bool
  | .response m _ => decide (m = n)
  | .errorResponse m _ _ => decide (m = n)
  | .asyncMsg _ _ => false

/-- Whether a local output line is any response at all (as opposed to an
asynchronous message). -/
def isAnyResponse : LocalMsg → Bool
  | .response _ _ => true
  | .errorResponse _ _ _ => true
  | .asyncMsg _ _ => false

end bridge

/-! ## Helper lemmas -/

/-- The guard of `handleChatEvent` fails for an event on the active run. -/
lemma handleChatEvent_guard_neg (c : gatewayws.Client) (e : gatewayws.ChatEvent)
    (hactive : c.activeRunID ≠ []) (hrun : e.runId = c.activeRunID) :
    ¬ (c.activeRunID = [] ∨ e.runId ≠ c.activeRunID) := by
  push_neg
  exact ⟨hactive, hrun⟩

/-- Once no run is active, any further chat events leave the client state
untouched and deliver nothing. -/
lemma processEvents_inactive (c : gatewayws.Client) (h : c.activeRunID = [])
    (es : List gatewayws.ChatEvent) :
    gatewayws.processEvents c es = (c, []) := by
  induction es with
  | nil => rfl
  | cons e tl ih =>
    simp only [gatewayws.processEvents]
    rw [show gatewayws.handleChatEvent c e = (c, ⟨[], false⟩) by
      unfold gatewayws.handleChatEvent
      rw [if_pos (Or.inl h)]]
    simp [ih]

/-! ## Claim theorems -/

/-- Claim C3: for every inbound chat event whose run identifier differs
from the active one (including when no run is active), the client invokes
no `onMessage` callback and leaves the run-tracking state unchanged. -/
theorem ws_other_run_ignored (c : gatewayws.Client) (e : gatewayws.ChatEvent)
    (h : c.activeRunID = [] ∨ e.runId ≠ c.activeRunID) :
    gatewayws.handleChatEvent c e = (c, ⟨[], false⟩) := by
  unfold gatewayws.handleChatEvent
  rw [if_pos h]

theorem ws_other_run_ignored_witness :
    ((chars "r1" : Str) = [] ∨ chars "r2" ≠ chars "r1") ∧
    gatewayws.handleChatEvent ⟨true, true, 0, chars "r1", chars "x"⟩
        ⟨chars "r2", chars "streaming", [⟨chars "text", chars "y"⟩], []⟩ =
      (⟨true, true, 0, chars "r1", chars "x"⟩, ⟨[], false⟩) :=
  ⟨by decide,
    ws_other_run_ignored ⟨true, true, 0, chars "r1", chars "x"⟩
      ⟨chars "r2", chars "streaming", [⟨chars "text", chars "y"⟩], []⟩ (by decide)⟩

/-- Claim C4: processing a terminal-state event (final, error or aborted)
for the active run clears the active run identifier, and afterwards every
event bearing the old run identifier is ignored (no `onMessage`, no state
change) — in fact all further chat events are ignored until a new run is
acknowledged. -/
theorem ws_terminal_clears_run (c : gatewayws.Client) (e : gatewayws.ChatEvent)
    (hactive : c.activeRunID ≠ []) (hrun : e.runId = c.activeRunID)
    (hterm : gatewayws.terminalState e.state) :
    (gatewayws.handleChatEvent c e).1.activeRunID = [] ∧
    ∀ es : List gatewayws.ChatEvent,
      gatewayws.processEvents (gatewayws.handleChatEvent c e).1 es =
        ((gatewayws.handleChatEvent c e).1, []) := by
  have hcleared : (gatewayws.handleChatEvent c e).1.activeRunID = [] := by
    unfold gatewayws.handleChatEvent
    rw [if_neg (handleChatEvent_guard_neg c e hactive hrun)]
    simp only [if_pos hterm]
    simp
  exact ⟨hcleared, fun es => processEvents_inactive _ hcleared es⟩

theorem ws_terminal_clears_run_witness :
    ((chars "r1" : Str) ≠ [] ∧ (chars "r1" : Str) = chars "r1" ∧
      gatewayws.terminalState (chars "final")) ∧
    ((gatewayws.handleChatEvent ⟨true, true, 0, chars "r1", chars "The"⟩
        ⟨chars "r1", chars "final", [⟨chars "text", chars "The end"⟩], []⟩).1.activeRunID = [] ∧
      ∀ es : List gatewayws.ChatEvent,
        gatewayws.processEvents
            (gatewayws.handleChatEvent ⟨true, true, 0, chars "r1", chars "The"⟩
              ⟨chars "r1", chars "final", [⟨chars "text", chars "The end"⟩], []⟩).1 es =
          ((gatewayws.handleChatEvent ⟨true, true, 0, chars "r1", chars "The"⟩
              ⟨chars "r1", chars "final", [⟨chars "text", chars "The end"⟩], []⟩).1, [])) :=
  ⟨⟨by decide, by decide, by decide⟩,
    ws_terminal_clears_run ⟨true, true, 0, chars "r1", chars "The"⟩
      ⟨chars "r1", chars "final", [⟨chars "text", chars "The end"⟩], []⟩
      (by decide) (by decide) (by decide)⟩

/-- Claim C6: a `Send` on the websocket client while it is not connected
(or has no live connection) returns the "not connected" error, leaves the
client unchanged and writes nothing to the network; and the CLI-relay
variant reports itself connected unconditionally, so a disconnected `Send`
cannot arise there at all. -/
theorem send_disconnected_no_traffic (c : gatewayws.Client) (content : Str)
    (h : c.connected = false ∨ c.hasConn = false) :
    gatewayws.Send c content = (c, some (chars "not connected"), .noWrite) ∧
    ∀ c' : gatewaycli.Client, gatewaycli.IsConnected c' = true := by
  constructor
  · unfold gatewayws.Send
    rw [if_pos h]
  · intro c'
    rfl

theorem send_disconnected_no_traffic_witness :
    ((false : Bool) = false ∨ (true : Bool) = false) ∧
    (gatewayws.Send ⟨false, true, 3, [], []⟩ (chars "hello") =
        (⟨false, true, 3, [], []⟩, some (chars "not connected"), .noWrite) ∧
      ∀ c' : gatewaycli.Client, gatewaycli.IsConnected c' = true) :=
  ⟨Or.inl rfl,
    send_disconnected_no_traffic ⟨false, true, 3, [], []⟩ (chars "hello") (Or.inl rfl)⟩

/-- Claim C7: when the session log exists and its size does not exceed the
configured threshold, `EnsureSession` returns the session path and leaves
the filesystem untouched, and repeated calls do the same — idempotence. -/
theorem ensureSession_idempotent (m : session.Manager) (fs : session.FS) (content : Str)
    (hex : fs.sessionFile = some content) (hsz : content.length ≤ m.maxSizeBytes) :
    (∀ cl : session.Clock, session.EnsureSession m fs cl = (session.SessionPath m, fs)) ∧
    ∀ cl cl' : session.Clock,
      session.EnsureSession m (session.EnsureSession m fs cl).2 cl' =
        (session.SessionPath m, fs) := by
  have hone : ∀ cl : session.Clock,
      session.EnsureSession m fs cl = (session.SessionPath m, fs) := by
    intro cl
    have hno : ¬ (m.autoArchive = true ∧ m.maxSizeBytes < content.length) := by
      rintro ⟨_, hlt⟩
      omega
    simp only [session.EnsureSession, hex, if_neg hno]
  refine ⟨hone, fun cl cl' => ?_⟩
  rw [hone cl]
  exact hone cl'

theorem ensureSession_idempotent_witness :
    ((⟨some (chars "log data"), []⟩ : session.FS).sessionFile = some (chars "log data") ∧
      (chars "log data").length ≤ 100) ∧
    ((∀ cl : session.Clock,
        session.EnsureSession ⟨chars "/d", 100, true⟩ ⟨some (chars "log data"), []⟩ cl =
          (session.SessionPath ⟨chars "/d", 100, true⟩, ⟨some (chars "log data"), []⟩)) ∧
      ∀ cl cl' : session.Clock,
        session.EnsureSession ⟨chars "/d", 100, true⟩
            (session.EnsureSession ⟨chars "/d", 100, true⟩
              ⟨some (chars "log data"), []⟩ cl).2 cl' =
          (session.SessionPath ⟨chars "/d", 100, true⟩, ⟨some (chars "log data"), []⟩)) :=
  ⟨⟨rfl, by decide⟩,
    ensureSession_idempotent ⟨chars "/d", 100, true⟩ ⟨some (chars "log data"), []⟩
      (chars "log data") rfl (by decide)⟩

/-- Claim C1 fails on the code: with active run `r1` and accumulated
content `"The answer"`, a non-terminal event whose cumulative text shrinks
to `"The"` raises no error; the client silently updates its tracker to the
new cumulative text and moves on (here it delivers nothing because the
length-based delta is empty). -/
theorem ws_nonextending_counterexample :
    ¬ ((⟨true, true, 0, chars "r1", chars "The answer"⟩ : gatewayws.Client).lastContent <+:
        gatewayws.fullTextOf ⟨chars "r1", chars "streaming", [⟨chars "text", chars "The"⟩], []⟩) ∧
    (gatewayws.handleChatEvent ⟨true, true, 0, chars "r1", chars "The answer"⟩
        ⟨chars "r1", chars "streaming", [⟨chars "text", chars "The"⟩], []⟩).2.raisedError
      = false ∧
    (gatewayws.handleChatEvent ⟨true, true, 0, chars "r1", chars "The answer"⟩
        ⟨chars "r1", chars "streaming", [⟨chars "text", chars "The"⟩], []⟩).1.lastContent
      = chars "The" ∧
    (gatewayws.handleChatEvent ⟨true, true, 0, chars "r1", chars "The answer"⟩
        ⟨chars "r1", chars "streaming", [⟨chars "text", chars "The"⟩], []⟩).2.messages
      = [] := by
  decide

/-- Claim C1 as amended: on every chat event for the active run whose
cumulative text is not an extension of the tracked content, the client
raises no error and never treats the event as a protocol violation — it
silently reconciles.  The tracker is updated to the new cumulative text
(cleared when the state is terminal), and `onMessage` receives the
length-based delta: nothing for a non-terminal event whose delta is empty,
the delta with `done = false` for a non-terminal event whose text
lengthened, the (possibly empty) delta with `done = true` for a terminal
non-error event, and the server's error text with `done = true` for an
error event. -/
theorem ws_nonextending_silent (c : gatewayws.Client) (e : gatewayws.ChatEvent)
    (hactive : c.activeRunID ≠ []) (hrun : e.runId = c.activeRunID)
    (hnotext : ¬ (c.lastContent <+: gatewayws.fullTextOf e)) :
    (gatewayws.handleChatEvent c e).2.raisedError = false ∧
    (gatewayws.handleChatEvent c e).1 =
      (if gatewayws.terminalState e.state
        then { c with activeRunID := [], lastContent := [] }
        else { c with lastContent := gatewayws.fullTextOf e }) ∧
    (gatewayws.handleChatEvent c e).2.messages =
      (if e.state = chars "error" then [(e.errorMessage, true)]
       else if gatewayws.terminalState e.state
        then [(gatewayws.lengthDelta c.lastContent (gatewayws.fullTextOf e), true)]
       else if gatewayws.lengthDelta c.lastContent (gatewayws.fullTextOf e) = []
        then []
        else [(gatewayws.lengthDelta c.lastContent (gatewayws.fullTextOf e), false)]) := by
  have hguard := handleChatEvent_guard_neg c e hactive hrun
  by_cases herr : e.state = chars "error"
  · have hterm : gatewayws.terminalState e.state := Or.inr (Or.inl herr)
    have hmain : gatewayws.handleChatEvent c e =
        ({ c with activeRunID := [], lastContent := [] },
          ⟨[(e.errorMessage, true)], false⟩) := by
      unfold gatewayws.handleChatEvent
      rw [if_neg hguard]
      simp [if_pos hterm, if_pos herr]
    rw [hmain]
    refine ⟨rfl, ?_, ?_⟩
    · rw [if_pos hterm]
    · rw [if_pos herr]
  · by_cases hterm : gatewayws.terminalState e.state
    · have hmain : gatewayws.handleChatEvent c e =
          ({ c with activeRunID := [], lastContent := [] },
            ⟨[(gatewayws.lengthDelta c.lastContent (gatewayws.fullTextOf e), true)],
              false⟩) := by
        unfold gatewayws.handleChatEvent
        rw [if_neg hguard]
        simp [if_pos hterm, if_neg herr]
      rw [hmain]
      refine ⟨rfl, ?_, ?_⟩
      · rw [if_pos hterm]
      · rw [if_neg herr, if_pos hterm]
    · by_cases hd : gatewayws.lengthDelta c.lastContent (gatewayws.fullTextOf e) = []
      · have hmain : gatewayws.handleChatEvent c e =
            ({ c with lastContent := gatewayws.fullTextOf e }, ⟨[], false⟩) := by
          unfold gatewayws.handleChatEvent
          rw [if_neg hguard]
          simp [if_neg hterm, if_neg herr, hd]
        rw [hmain]
        refine ⟨rfl, ?_, ?_⟩
        · rw [if_neg hterm]
        · rw [if_neg herr, if_neg hterm, if_pos hd]
      · have hmain : gatewayws.handleChatEvent c e =
            ({ c with lastContent := gatewayws.fullTextOf e },
              ⟨[(gatewayws.lengthDelta c.lastContent (gatewayws.fullTextOf e), false)],
                false⟩) := by
          unfold gatewayws.handleChatEvent
          rw [if_neg hguard]
          simp [if_neg hterm, if_neg herr, hd]
        rw [hmain]
        refine ⟨rfl, ?_, ?_⟩
        · rw [if_neg hterm]
        · rw [if_neg herr, if_neg hterm, if_neg hd]

theorem ws_nonextending_silent_witness :
    ((chars "r1" : Str) ≠ [] ∧
      ¬ (chars "The answer" <+:
          gatewayws.fullTextOf
            ⟨chars "r1", chars "streaming", [⟨chars "text", chars "Though"⟩], []⟩)) ∧
    ((gatewayws.handleChatEvent ⟨true, true, 0, chars "r1", chars "The answer"⟩
        ⟨chars "r1", chars "streaming", [⟨chars "text", chars "Though"⟩], []⟩).2.raisedError
      = false ∧
    (gatewayws.handleChatEvent ⟨true, true, 0, chars "r1", chars "The answer"⟩
        ⟨chars "r1", chars "streaming", [⟨chars "text", chars "Though"⟩], []⟩).1 =
      (if gatewayws.terminalState (chars "streaming")
        then ⟨true, true, 0, [], []⟩
        else ⟨true, true, 0, chars "r1",
          gatewayws.fullTextOf
            ⟨chars "r1", chars "streaming", [⟨chars "text", chars "Though"⟩], []⟩⟩) ∧
    (gatewayws.handleChatEvent ⟨true, true, 0, chars "r1", chars "The answer"⟩
        ⟨chars "r1", chars "streaming", [⟨chars "text", chars "Though"⟩], []⟩).2.messages =
      (if (chars "streaming" : Str) = chars "error" then [(chars "", true)]
       else if gatewayws.terminalState (chars "streaming")
        then [(gatewayws.lengthDelta (chars "The answer")
            (gatewayws.fullTextOf
              ⟨chars "r1", chars "streaming", [⟨chars "text", chars "Though"⟩], []⟩), true)]
       else if gatewayws.lengthDelta (chars "The answer")
            (gatewayws.fullTextOf
              ⟨chars "r1", chars "streaming", [⟨chars "text", chars "Though"⟩], []⟩) = []
        then []
        else [(gatewayws.lengthDelta (chars "The answer")
            (gatewayws.fullTextOf
              ⟨chars "r1", chars "streaming", [⟨chars "text", chars "Though"⟩], []⟩),
          false)])) :=
  ⟨⟨by decide, by decide⟩,
    ws_nonextending_silent ⟨true, true, 0, chars "r1", chars "The answer"⟩
      ⟨chars "r1", chars "streaming", [⟨chars "text", chars "Though"⟩], []⟩
      (by decide) (by decide) (by decide)⟩

/-! Lookup behaviour of a rename into the archive directory. -/

lemma lookupFile_renameInto_self (l : List (Str × Str)) (k v : Str) :
    session.lookupFile (session.renameInto l k v) k = some v := by
  unfold session.renameInto
  induction l with
  | nil => simp [session.removeFile, session.lookupFile]
  | cons p t ih =>
    by_cases hp : p.1 = k
    · simpa [session.removeFile, hp] using ih
    · simpa [session.removeFile, hp, session.lookupFile] using ih

lemma lookupFile_renameInto_other (l : List (Str × Str)) (k v k' : Str) (h : k' ≠ k) :
    session.lookupFile (session.renameInto l k v) k' = session.lookupFile l k' := by
  unfold session.renameInto
  induction l with
  | nil => simp [session.removeFile, session.lookupFile, Ne.symm h]
  | cons p t ih =>
    by_cases hp : p.1 = k
    · simpa [session.removeFile, hp, session.lookupFile, Ne.symm h] using ih
    · by_cases hq : p.1 = k'
      · simp [session.removeFile, hp, session.lookupFile, hq, h]
      · simpa [session.removeFile, hp, session.lookupFile, hq] using ih

/-- Claim C8 fails in one detail: the log created in place of the rotated
one is not empty — it carries the fresh header block written by
`createSession`. -/
theorem rotation_new_log_counterexample :
    (session.EnsureSession ⟨chars "/d", 5, true⟩
        ⟨some (chars "0123456789"), []⟩ ⟨chars "2025-01-02-030405", chars "T", 7⟩).2.sessionFile
      ≠ some [] ∧
    (session.EnsureSession ⟨chars "/d", 5, true⟩
        ⟨some (chars "0123456789"), []⟩ ⟨chars "2025-01-02-030405", chars "T", 7⟩).2.sessionFile
      = some (session.headerFor ⟨chars "2025-01-02-030405", chars "T", 7⟩) := by
  decide

/-- Claim C8 as amended: when the log exists, auto-rotation is on and the
size exceeds the threshold, one call to `EnsureSession` performs exactly one
rotation — the old log's full byte content is preserved unchanged under the
timestamp-named file in the archive directory (a rename, never a delete or
truncate: every other archived file is untouched), and a new log containing
only a fresh header block (not an empty file) is created at the session
path. -/
theorem ensureSession_rotation (m : session.Manager) (fs : session.FS) (content : Str)
    (cl : session.Clock)
    (hex : fs.sessionFile = some content)
    (hauto : m.autoArchive = true)
    (hsz : m.maxSizeBytes < content.length) :
    (session.EnsureSession m fs cl).1 = session.SessionPath m ∧
    (session.EnsureSession m fs cl).2.sessionFile = some (session.headerFor cl) ∧
    session.lookupFile (session.EnsureSession m fs cl).2.archive (session.archiveFileName cl)
      = some content ∧
    ∀ k : Str, k ≠ session.archiveFileName cl →
      session.lookupFile (session.EnsureSession m fs cl).2.archive k
        = session.lookupFile fs.archive k := by
  have hred : session.EnsureSession m fs cl =
      (session.SessionPath m, session.createSession (session.Archive fs cl) cl) := by
    simp only [session.EnsureSession, hex, if_pos (And.intro hauto hsz)]
  rw [hred]
  refine ⟨rfl, rfl, ?_, ?_⟩
  · simp only [session.createSession, session.Archive, hex]
    exact lookupFile_renameInto_self fs.archive (session.archiveFileName cl) content
  · intro k hk
    simp only [session.createSession, session.Archive, hex]
    exact lookupFile_renameInto_other fs.archive (session.archiveFileName cl) content k hk

theorem ensureSession_rotation_witness :
    ((⟨some (chars "0123456789"), [(chars "old.md", chars "bytes")]⟩ : session.FS).sessionFile
        = some (chars "0123456789") ∧
      (⟨chars "/d", 5, true⟩ : session.Manager).autoArchive = true ∧
      (⟨chars "/d", 5, true⟩ : session.Manager).maxSizeBytes < (chars "0123456789").length) ∧
    ((session.EnsureSession ⟨chars "/d", 5, true⟩
        ⟨some (chars "0123456789"), [(chars "old.md", chars "bytes")]⟩
        ⟨chars "2025-01-02-030405", chars "T", 7⟩).1 = session.SessionPath ⟨chars "/d", 5, true⟩ ∧
      (session.EnsureSession ⟨chars "/d", 5, true⟩
        ⟨some (chars "0123456789"), [(chars "old.md", chars "bytes")]⟩
        ⟨chars "2025-01-02-030405", chars "T", 7⟩).2.sessionFile
        = some (session.headerFor ⟨chars "2025-01-02-030405", chars "T", 7⟩) ∧
      session.lookupFile (session.EnsureSession ⟨chars "/d", 5, true⟩
        ⟨some (chars "0123456789"), [(chars "old.md", chars "bytes")]⟩
        ⟨chars "2025-01-02-030405", chars "T", 7⟩).2.archive
          (session.archiveFileName ⟨chars "2025-01-02-030405", chars "T", 7⟩)
        = some (chars "0123456789") ∧
      ∀ k : Str, k ≠ session.archiveFileName ⟨chars "2025-01-02-030405", chars "T", 7⟩ →
        session.lookupFile (session.EnsureSession ⟨chars "/d", 5, true⟩
          ⟨some (chars "0123456789"), [(chars "old.md", chars "bytes")]⟩
          ⟨chars "2025-01-02-030405", chars "T", 7⟩).2.archive k
          = session.lookupFile [(chars "old.md", chars "bytes")] k) :=
  ⟨⟨rfl, rfl, by decide⟩,
    ensureSession_rotation ⟨chars "/d", 5, true⟩
      ⟨some (chars "0123456789"), [(chars "old.md", chars "bytes")]⟩
      (chars "0123456789") ⟨chars "2025-01-02-030405", chars "T", 7⟩
      rfl rfl (by decide)⟩

/-! Gateway-callback traces of the bridge. -/

/-- With no pending id, a stream of gateway callbacks only forwards
`stream` messages and never changes the bridge state. -/
lemma runBridge_gateway_zero (ms : List (Str × Bool)) :
    bridge.runBridge ⟨0⟩ (ms.map fun m => .gatewayMsg m.1 m.2) =
      (⟨0⟩, ms.map fun m => .asyncMsg (chars "stream") (.stream m.1 m.2)) := by
  induction ms with
  | nil => rfl
  | cons hd tl ih =>
    simp [bridge.runBridge, bridge.step, bridge.handleGatewayMessage, ih]

/-- Forwarded `stream` messages are not responses. -/
lemma filter_completion_asyncMsgs (p : bridge.LocalMsg → Bool)
    (hp : ∀ method body, p (.asyncMsg method body) = false) (ms : List (Str × Bool)) :
    (ms.map fun m => bridge.LocalMsg.asyncMsg (chars "stream") (.stream m.1 m.2)).filter p
      = [] := by
  induction ms with
  | nil => rfl
  | cons hd tl ih => simp [hp, ih]

/-- With pending id `n ≠ 0`, a stream of gateway callbacks containing a
`done` answers `n` with `{status:"ok"}` exactly once — at the first `done`
— and resets the pending id to zero. -/
lemma runBridge_gateway_pending (n : Int) (hn : n ≠ 0) (ms : List (Str × Bool))
    (hdone : ∃ m ∈ ms, m.2 = true) :
    (bridge.runBridge ⟨n⟩ (ms.map fun m => .gatewayMsg m.1 m.2)).2.filter
        (bridge.isCompletionFor n) = [.response n .statusOk] ∧
    (bridge.runBridge ⟨n⟩ (ms.map fun m => .gatewayMsg m.1 m.2)).1 = ⟨0⟩ := by
  induction ms with
  | nil => simp at hdone
  | cons hd tl ih =>
    by_cases hd2 : hd.2 = true
    · have hstep : bridge.step ⟨n⟩ (.gatewayMsg hd.1 hd.2) =
          (⟨0⟩, [.asyncMsg (chars "stream") (.stream hd.1 hd.2),
                 .response n .statusOk]) := by
        simp [bridge.step, bridge.handleGatewayMessage, hd2, hn]
      constructor
      · simp only [List.map_cons, bridge.runBridge, hstep, runBridge_gateway_zero]
        simp [bridge.isCompletionFor,
          filter_completion_asyncMsgs (bridge.isCompletionFor n) (fun _ _ => rfl)]
      · simp only [List.map_cons, bridge.runBridge, hstep, runBridge_gateway_zero]
    · have hstep : bridge.step ⟨n⟩ (.gatewayMsg hd.1 hd.2) =
          (⟨n⟩, [.asyncMsg (chars "stream") (.stream hd.1 hd.2)]) := by
        simp [bridge.step, bridge.handleGatewayMessage, hd2]
      have htl : ∃ m ∈ tl, m.2 = true := by
        rcases hdone with ⟨m, hm, hmt⟩
        rcases List.mem_cons.mp hm with hhd | htl
        · exact absurd (hhd ▸ hmt) hd2
        · exact ⟨m, htl, hmt⟩
      rcases ih htl with ⟨ih1, ih2⟩
      constructor
      · simp only [List.map_cons, bridge.runBridge, hstep]
        simp [bridge.isCompletionFor, ih1]
      · simp only [List.map_cons, bridge.runBridge, hstep]
        exact ih2

/-- Claim C10: the bridge uses correlation id zero as the "no pending
response" sentinel. A connected, accepted `send` whose request carried no
id (or id zero) is forwarded without any immediate output and leaves no
pending id, and a trace of gateway callbacks from that state emits stream
messages only — never a response, even when the run terminates; when a
deferred response for a nonzero pending id fires on `done`, the pending id
is reset to zero, so at most one deferred response is ever outstanding. -/
theorem bridge_zero_id_sentinel (env : bridge.Env) (b : bridge.BridgeState)
    (content : Str) (i : Option Int)
    (hid : i = none ∨ i = some 0)
    (hconn : env.isConnected = true) (hsend : env.sendErr = none) :
    bridge.handleRequest env b ⟨chars "send", some content, i⟩ = (⟨0⟩, []) ∧
    (∀ ms : List (Str × Bool),
      (bridge.runBridge ⟨0⟩ (ms.map fun m => .gatewayMsg m.1 m.2)).2.filter
          bridge.isAnyResponse = [] ∧
      (bridge.runBridge ⟨0⟩ (ms.map fun m => .gatewayMsg m.1 m.2)).1 = ⟨0⟩) ∧
    ∀ (b2 : bridge.BridgeState) (c2 : Str), b2.reqID ≠ 0 →
      bridge.handleGatewayMessage b2 c2 true =
        (⟨0⟩, [.asyncMsg (chars "stream") (.stream c2 true),
               .response b2.reqID .statusOk]) := by
  refine ⟨?_, ?_, ?_⟩
  · have hi : i.getD 0 = 0 := by
      rcases hid with h | h <;> simp [h]
    simp [bridge.handleRequest, bridge.handleSend, hconn, hsend, hi]
  · intro ms
    rw [runBridge_gateway_zero]
    exact ⟨filter_completion_asyncMsgs bridge.isAnyResponse (fun _ _ => rfl) ms, rfl⟩
  · intro b2 c2 hb2
    simp [bridge.handleGatewayMessage, hb2]

theorem bridge_zero_id_sentinel_witness :
    ((some 0 = (none : Option Int) ∨ (some 0 : Option Int) = some 0) ∧
      (⟨true, none, none, none, none, [], []⟩ : bridge.Env).isConnected = true ∧
      (⟨true, none, none, none, none, [], []⟩ : bridge.Env).sendErr = none) ∧
    (bridge.handleRequest ⟨true, none, none, none, none, [], []⟩ ⟨0⟩
        ⟨chars "send", some (chars "hi"), some 0⟩ = (⟨0⟩, []) ∧
      (∀ ms : List (Str × Bool),
        (bridge.runBridge ⟨0⟩ (ms.map fun m => .gatewayMsg m.1 m.2)).2.filter
            bridge.isAnyResponse = [] ∧
        (bridge.runBridge ⟨0⟩ (ms.map fun m => .gatewayMsg m.1 m.2)).1 = ⟨0⟩) ∧
      ∀ (b2 : bridge.BridgeState) (c2 : Str), b2.reqID ≠ 0 →
        bridge.handleGatewayMessage b2 c2 true =
          (⟨0⟩, [.asyncMsg (chars "stream") (.stream c2 true),
                 .response b2.reqID .statusOk])) :=
  ⟨⟨Or.inr rfl, rfl, rfl⟩,
    bridge_zero_id_sentinel ⟨true, none, none, none, none, [], []⟩ ⟨0⟩
      (chars "hi") (some 0) (Or.inr rfl) rfl rfl⟩

/-- Claim C5 fails on the code for one family of inputs: a `send` carrying
the non-null correlation id `0` is accepted while connected (no immediate
output), yet when the run terminates with `done = true` no response for
that id is ever emitted — id `0` collides with the "nothing pending"
sentinel. -/
theorem bridge_send_id_zero_counterexample :
    bridge.handleRequest ⟨true, none, none, none, none, [], []⟩ ⟨0⟩
        ⟨chars "send", some (chars "hi"), some 0⟩ = (⟨0⟩, []) ∧
    (bridge.runBridge ⟨0⟩
        [.requestLine ⟨true, none, none, none, none, [], []⟩
            ⟨chars "send", some (chars "hi"), some 0⟩,
         .gatewayMsg (chars "answer") true]).2.filter (bridge.isCompletionFor 0) = [] := by
  decide

/-- Claim C5 as amended: for every send request carrying a non-null and
nonzero correlation id that is accepted while connected, the bridge defers
the local response (the send line itself produces no output) and, once the
gateway client's `onMessage` reports `done = true`, emits exactly one
response for that id, namely `{status:"ok"}`, afterwards clearing the
pending id. -/
theorem bridge_send_deferred_once (env : bridge.Env) (content : Str) (n : Int)
    (hn : n ≠ 0) (hconn : env.isConnected = true) (hsend : env.sendErr = none)
    (ms : List (Str × Bool)) (hdone : ∃ m ∈ ms, m.2 = true) :
    bridge.handleRequest env ⟨0⟩ ⟨chars "send", some content, some n⟩ = (⟨n⟩, []) ∧
    (bridge.runBridge ⟨0⟩
        (.requestLine env ⟨chars "send", some content, some n⟩ ::
          ms.map fun m => .gatewayMsg m.1 m.2)).2.filter (bridge.isCompletionFor n) =
      [.response n .statusOk] ∧
    (bridge.runBridge ⟨0⟩
        (.requestLine env ⟨chars "send", some content, some n⟩ ::
          ms.map fun m => .gatewayMsg m.1 m.2)).1 = ⟨0⟩ := by
  have haccept : bridge.handleRequest env ⟨0⟩ ⟨chars "send", some content, some n⟩ =
      (⟨n⟩, []) := by
    simp [bridge.handleRequest, bridge.handleSend, hconn, hsend]
  have hstep : bridge.step ⟨0⟩ (.requestLine env ⟨chars "send", some content, some n⟩) =
      (⟨n⟩, []) := haccept
  rcases runBridge_gateway_pending n hn ms hdone with ⟨h1, h2⟩
  refine ⟨haccept, ?_, ?_⟩
  · simp only [bridge.runBridge, hstep]
    simpa using h1
  · simp only [bridge.runBridge, hstep]
    simpa using h2

theorem bridge_send_deferred_once_witness :
    ((7 : Int) ≠ 0 ∧
      (⟨true, none, none, none, none, [], []⟩ : bridge.Env).isConnected = true ∧
      (⟨true, none, none, none, none, [], []⟩ : bridge.Env).sendErr = none ∧
      (∃ m ∈ [(chars "partial", false), (chars "full", true)], m.2 = true)) ∧
    (bridge.handleRequest ⟨true, none, none, none, none, [], []⟩ ⟨0⟩
        ⟨chars "send", some (chars "hi"), some 7⟩ = (⟨7⟩, []) ∧
      (bridge.runBridge ⟨0⟩
          (.requestLine ⟨true, none, none, none, none, [], []⟩
              ⟨chars "send", some (chars "hi"), some 7⟩ ::
            [(chars "partial", false), (chars "full", true)].map
              fun m => .gatewayMsg m.1 m.2)).2.filter (bridge.isCompletionFor 7) =
        [.response 7 .statusOk] ∧
      (bridge.runBridge ⟨0⟩
          (.requestLine ⟨true, none, none, none, none, [], []⟩
              ⟨chars "send", some (chars "hi"), some 7⟩ ::
            [(chars "partial", false), (chars "full", true)].map
              fun m => .gatewayMsg m.1 m.2)).1 = ⟨0⟩) :=
  ⟨⟨by decide, rfl, rfl, ⟨(chars "full", true), by simp⟩⟩,
    bridge_send_deferred_once ⟨true, none, none, none, none, [], []⟩ (chars "hi") 7
      (by decide) rfl rfl [(chars "partial", false), (chars "full", true)]
      ⟨(chars "full", true), by simp⟩⟩

/-! Delta concatenation over a strictly extending run. -/

lemma processEvents_nil (c : gatewayws.Client) : gatewayws.processEvents c [] = (c, []) := rfl

lemma processEvents_cons (c : gatewayws.Client) (e : gatewayws.ChatEvent)
    (es : List gatewayws.ChatEvent) :
    gatewayws.processEvents c (e :: es) =
      ((gatewayws.processEvents (gatewayws.handleChatEvent c e).1 es).1,
        (gatewayws.handleChatEvent c e).2.messages ++
          (gatewayws.processEvents (gatewayws.handleChatEvent c e).1 es).2) := rfl

/-- Core induction: starting from tracked content `prev`, a run of
non-terminal events followed by one `final` event, with strictly extending
cumulative contents, clears the run, delivers one delta per event with
`done` only on the last, and the deltas prepended with `prev` rebuild the
final cumulative content. -/
lemma processEvents_extending_aux (b1 b2 : Bool) (n : Nat) (r : Str) (hr : r ≠ [])
    (fin : gatewayws.ChatEvent) (hfr : fin.runId = r) (hfs : fin.state = chars "final") :
    ∀ (es : List gatewayws.ChatEvent) (prev : Str),
      (∀ e ∈ es, e.runId = r ∧ ¬ gatewayws.terminalState e.state) →
      List.Chain gatewayws.strictExt prev ((es ++ [fin]).map gatewayws.fullTextOf) →
      (gatewayws.processEvents ⟨b1, b2, n, r, prev⟩ (es ++ [fin])).1 = ⟨b1, b2, n, [], []⟩ ∧
      prev ++ ((gatewayws.processEvents ⟨b1, b2, n, r, prev⟩ (es ++ [fin])).2.map
          Prod.fst).flatten = gatewayws.fullTextOf fin ∧
      (gatewayws.processEvents ⟨b1, b2, n, r, prev⟩ (es ++ [fin])).2.map Prod.snd
        = List.replicate es.length false ++ [true] := by
  intro es
  induction es with
  | nil =>
    intro prev _ hchain
    rw [List.nil_append, List.map_cons, List.map_nil, List.chain_cons] at hchain
    obtain ⟨⟨⟨t, ht⟩, hne⟩, -⟩ := hchain
    have htne : t ≠ [] := by
      intro h0
      rw [h0, List.append_nil] at ht
      exact hne ht
    have hlen : prev.length < (gatewayws.fullTextOf fin).length := by
      have := congrArg List.length ht
      simp only [List.length_append] at this
      have := List.length_pos.mpr htne
      omega
    have hdrop : (gatewayws.fullTextOf fin).drop prev.length = t := by
      rw [← ht]
      exact List.drop_left prev t
    have hstep : gatewayws.handleChatEvent ⟨b1, b2, n, r, prev⟩ fin =
        (⟨b1, b2, n, [], []⟩, ⟨[(t, true)], false⟩) := by
      have hterm : gatewayws.terminalState fin.state := Or.inl hfs
      have herr : fin.state ≠ chars "error" := by
        rw [hfs]
        decide
      unfold gatewayws.handleChatEvent
      rw [if_neg (handleChatEvent_guard_neg _ fin hr hfr)]
      simp [gatewayws.lengthDelta, if_pos hterm, if_neg herr, if_pos hlen, hdrop]
    have hrun : gatewayws.processEvents ⟨b1, b2, n, r, prev⟩ ([] ++ [fin]) =
        (⟨b1, b2, n, [], []⟩, [(t, true)]) := by
      simp only [List.nil_append, processEvents_cons, processEvents_nil, hstep,
        List.append_nil]
    rw [hrun]
    refine ⟨rfl, ?_, rfl⟩
    simpa using ht
  | cons e tl ih =>
    intro prev hall hchain
    have he := hall e (List.mem_cons_self e tl)
    rw [List.cons_append, List.map_cons, List.chain_cons] at hchain
    obtain ⟨⟨⟨t, ht⟩, hne⟩, hchain'⟩ := hchain
    have htne : t ≠ [] := by
      intro h0
      rw [h0, List.append_nil] at ht
      exact hne ht
    have hlen : prev.length < (gatewayws.fullTextOf e).length := by
      have := congrArg List.length ht
      simp only [List.length_append] at this
      have := List.length_pos.mpr htne
      omega
    have hdrop : (gatewayws.fullTextOf e).drop prev.length = t := by
      rw [← ht]
      exact List.drop_left prev t
    have hstep : gatewayws.handleChatEvent ⟨b1, b2, n, r, prev⟩ e =
        (⟨b1, b2, n, r, gatewayws.fullTextOf e⟩, ⟨[(t, false)], false⟩) := by
      have herr : e.state ≠ chars "error" := fun h => he.2 (Or.inr (Or.inl h))
      unfold gatewayws.handleChatEvent
      rw [if_neg (handleChatEvent_guard_neg _ e hr he.1)]
      simp [gatewayws.lengthDelta, if_neg he.2, if_neg herr, if_pos hlen, hdrop, htne]
    have hall' : ∀ e' ∈ tl, e'.runId = r ∧ ¬ gatewayws.terminalState e'.state :=
      fun e' h => hall e' (List.mem_cons_of_mem e h)
    obtain ⟨ih1, ih2, ih3⟩ := ih (gatewayws.fullTextOf e) hall' hchain'
    simp only [List.cons_append, processEvents_cons, hstep]
    refine ⟨ih1, ?_, ?_⟩
    · simp only [List.singleton_append, List.map_cons, List.flatten_cons,
        ← List.append_assoc, ht]
      exact ih2
    · simp only [List.singleton_append, List.map_cons, List.nil_append, ih3,
        List.length_cons, List.replicate_succ, List.cons_append]

/-- Claim C2: a sequence of chat events on the active run with strictly
extending cumulative contents — non-terminal until a last `final` event —
delivers one delta per event whose concatenation is exactly the final
cumulative content, with `done = true` only on the last delivery (and the
run is cleared). -/
theorem ws_deltas_concat (b1 b2 : Bool) (n : Nat) (r : Str) (hr : r ≠ [])
    (es : List gatewayws.ChatEvent) (fin : gatewayws.ChatEvent)
    (hes : ∀ e ∈ es, e.runId = r ∧ ¬ gatewayws.terminalState e.state)
    (hfr : fin.runId = r) (hfs : fin.state = chars "final")
    (hchain : List.Chain gatewayws.strictExt [] ((es ++ [fin]).map gatewayws.fullTextOf)) :
    ((gatewayws.processEvents ⟨b1, b2, n, r, []⟩ (es ++ [fin])).2.map Prod.fst).flatten
      = gatewayws.fullTextOf fin ∧
    (gatewayws.processEvents ⟨b1, b2, n, r, []⟩ (es ++ [fin])).2.map Prod.snd
      = List.replicate es.length false ++ [true] ∧
    (gatewayws.processEvents ⟨b1, b2, n, r, []⟩ (es ++ [fin])).1 = ⟨b1, b2, n, [], []⟩ := by
  obtain ⟨h1, h2, h3⟩ :=
    processEvents_extending_aux b1 b2 n r hr fin hfr hfs es [] hes hchain
  exact ⟨by simpa using h2, h3, h1⟩

theorem ws_deltas_concat_witness :
    ((chars "r1" : Str) ≠ [] ∧
      List.Chain gatewayws.strictExt []
        ((([⟨chars "r1", chars "streaming", [⟨chars "text", chars "The"⟩], []⟩,
            ⟨chars "r1", chars "streaming", [⟨chars "text", chars "The answer"⟩], []⟩] :
              List gatewayws.ChatEvent) ++
          ([⟨chars "r1", chars "final",
            [⟨chars "text", chars "The answer is 42."⟩], []⟩] :
              List gatewayws.ChatEvent)).map gatewayws.fullTextOf)) ∧
    (gatewayws.processEvents ⟨true, true, 0, chars "r1", []⟩
        ([⟨chars "r1", chars "streaming", [⟨chars "text", chars "The"⟩], []⟩,
          ⟨chars "r1", chars "streaming", [⟨chars "text", chars "The answer"⟩], []⟩] ++
         [⟨chars "r1", chars "final",
           [⟨chars "text", chars "The answer is 42."⟩], []⟩])).2 =
      [(chars "The", false), (chars " answer", false), (chars " is 42.", true)] ∧
    (((gatewayws.processEvents ⟨true, true, 0, chars "r1", []⟩
        ([⟨chars "r1", chars "streaming", [⟨chars "text", chars "The"⟩], []⟩,
          ⟨chars "r1", chars "streaming", [⟨chars "text", chars "The answer"⟩], []⟩] ++
         [⟨chars "r1", chars "final",
           [⟨chars "text", chars "The answer is 42."⟩], []⟩])).2.map Prod.fst).flatten
      = gatewayws.fullTextOf
          ⟨chars "r1", chars "final", [⟨chars "text", chars "The answer is 42."⟩], []⟩ ∧
    (gatewayws.processEvents ⟨true, true, 0, chars "r1", []⟩
        ([⟨chars "r1", chars "streaming", [⟨chars "text", chars "The"⟩], []⟩,
          ⟨chars "r1", chars "streaming", [⟨chars "text", chars "The answer"⟩], []⟩] ++
         [⟨chars "r1", chars "final",
           [⟨chars "text", chars "The answer is 42."⟩], []⟩])).2.map Prod.snd
      = List.replicate
          ([⟨chars "r1", chars "streaming", [⟨chars "text", chars "The"⟩], []⟩,
            ⟨chars "r1", chars "streaming", [⟨chars "text", chars "The answer"⟩], []⟩] :
              List gatewayws.ChatEvent).length false ++ [true] ∧
    (gatewayws.processEvents ⟨true, true, 0, chars "r1", []⟩
        ([⟨chars "r1", chars "streaming", [⟨chars "text", chars "The"⟩], []⟩,
          ⟨chars "r1", chars "streaming", [⟨chars "text", chars "The answer"⟩], []⟩] ++
         [⟨chars "r1", chars "final",
           [⟨chars "text", chars "The answer is 42."⟩], []⟩])).1
      = ⟨true, true, 0, [], []⟩) :=
  ⟨⟨by decide, .cons (by decide) (.cons (by decide) (.cons (by decide) .nil))⟩,
    by decide,
    ws_deltas_concat true true 0 (chars "r1") (by decide)
      [⟨chars "r1", chars "streaming", [⟨chars "text", chars "The"⟩], []⟩,
       ⟨chars "r1", chars "streaming", [⟨chars "text", chars "The answer"⟩], []⟩]
      ⟨chars "r1", chars "final", [⟨chars "text", chars "The answer is 42."⟩], []⟩
      (by decide) (by decide) (by decide)
      (.cons (by decide) (.cons (by decide) (.cons (by decide) .nil)))⟩
